import Mathlib

/-!
Verification of the elrond-sdk-erdgo light-client components: the
transaction-data builder, the deterministic address generator, and the
header-check handler construction pipeline, embedded shallowly in Lean 4.
-/

namespace ErdGo

/-! ## Transaction-data builder (`txDataBuilder`, src/unnamed/part_000)

Errors that the builder steps can record.  In Go these are sentinel errors
wrapped with `fmt.Errorf`; the wrapping context is captured by the
constructor carrying the offending datum where the source does so. -/

inductive TxBuilderErr where
  | nilLogger : TxBuilderErr
  | nilAddress : TxBuilderErr
  | invalidAddress : TxBuilderErr
  | hexDecodeErr (hexed : String) : TxBuilderErr
  | nilValue : TxBuilderErr
  | invalidValue : TxBuilderErr
  deriving DecidableEq, Repr

/-- Model of `core.AddressHandler`: a Go interface value that is either nil
(`none`) or carries the address bytes together with its bech32 rendering. -/
structure AddrVal where
  bytes : List Nat
  bech32 : String
  deriving DecidableEq, Repr

/-- Model of the `txDataBuilder` struct: destination address, function name,
caller address, accumulated hex-string arguments, and the latched error
(`none` models Go's nil error; the logger field carries no behavior and is
dropped, its nil-ness being checked at construction). -/
structure TxDataBuilder where
  address : String
  function : String
  callerAddr : String
  args : List String
  err : Option TxBuilderErr
  deriving DecidableEq, Repr

/-- Model of `data.VmValueRequest` (the fields the builder populates). -/
structure VmValueRequest where
  address : String
  funcName : String
  callerAddr : String
  args : List String
  deriving DecidableEq, Repr

/-- Go's `hex.DecodeString` succeeds exactly on even-length strings of hex
digits (upper or lower case). -/
def goHexDecodable (s : String) : Bool :=
  s.length % 2 == 0 &&
    s.toList.all fun c =>
      (('0' ≤ c && c ≤ '9') || ('a' ≤ c && c ≤ 'f') || ('A' ≤ c && c ≤ 'F'))

/-- Lower-case hex digit for a value below 16, as Go's `hex.EncodeToString`
emits. -/
def hexDigitChar (n : Nat) : Char :=
  if n < 10 then Char.ofNat (48 + n) else Char.ofNat (87 + n)

/-- Go's `hex.EncodeToString`: each byte becomes two lower-case hex digits. -/
def hexEncode (bytes : List Nat) : String :=
  String.mk (bytes.foldr (fun b acc =>
    hexDigitChar (b / 16 % 16) :: hexDigitChar (b % 16) :: acc) [])

/-- Minimal big-endian byte representation, structurally recursive on a fuel
bound (the value itself always suffices, since dividing by 256 reaches zero
in far fewer steps). -/
def natToBytesBEAux (fuel n : Nat) : List Nat :=
  match fuel with
  | 0 => []
  | f + 1 => if n = 0 then [] else natToBytesBEAux f (n / 256) ++ [n % 256]

/-- Go's `big.Int.Bytes()` on a non-negative value: minimal big-endian byte
representation of the absolute value, empty for zero. -/
def natToBytesBE (n : Nat) : List Nat := natToBytesBEAux n n

/-- Bytes of a Go `big.Int` value (`Bytes()` returns the magnitude). -/
def bigIntBytes (v : Int) : List Nat := natToBytesBE v.natAbs

/-- Model of `NewTxDataBuilder`: a fresh builder whose error is `ErrNilLogger`
exactly when the supplied logger is nil. -/
def newTxDataBuilder (loggerIsNil : Bool) : TxDataBuilder :=
  { address := "", function := "", callerAddr := "", args := [],
    err := if loggerIsNil then some .nilLogger else none }

/-- Model of `builder.checkAddress`: nil interface, then empty bytes. -/
def checkAddress (address : Option AddrVal) : Option TxBuilderErr :=
  match address with
  | none => some .nilAddress
  | some a => if a.bytes.isEmpty then some .invalidAddress else none

/-- Model of `builder.Function`. -/
def TxDataBuilder.functionStep (b : TxDataBuilder) (f : String) : TxDataBuilder :=
  { b with function := f }

/-- Model of `builder.CallerAddress`. -/
def TxDataBuilder.callerAddress (b : TxDataBuilder) (address : Option AddrVal) :
    TxDataBuilder :=
  match checkAddress address with
  | some e => { b with err := some e }
  | none =>
    match address with
    | some a => { b with callerAddr := a.bech32 }
    | none => b

/-- Model of `builder.Address`. -/
def TxDataBuilder.addressStep (b : TxDataBuilder) (address : Option AddrVal) :
    TxDataBuilder :=
  match checkAddress address with
  | some e => { b with err := some e }
  | none =>
    match address with
    | some a => { b with address := a.bech32 }
    | none => b

/-- Model of `builder.ArgHexString`: append on decodable input, otherwise
record the wrapped decode error without appending. -/
def TxDataBuilder.argHexString (b : TxDataBuilder) (hexed : String) :
    TxDataBuilder :=
  if goHexDecodable hexed then { b with args := b.args ++ [hexed] }
  else { b with err := some (.hexDecodeErr hexed) }

/-- Model of `builder.addBytes`: an empty slice is replaced by the single zero
byte before hex-encoding and appending. -/
def TxDataBuilder.addBytes (b : TxDataBuilder) (bytes : List Nat) :
    TxDataBuilder :=
  let bytes' := if bytes.isEmpty then [0] else bytes
  { b with args := b.args ++ [hexEncode bytes'] }

/-- Model of `builder.ArgAddress`. -/
def TxDataBuilder.argAddress (b : TxDataBuilder) (address : Option AddrVal) :
    TxDataBuilder :=
  match checkAddress address with
  | some e => { b with err := some e }
  | none =>
    match address with
    | some a => b.addBytes a.bytes
    | none => b

/-- Model of `builder.ArgBigInt`: a nil pointer records `ErrNilValue`. -/
def TxDataBuilder.argBigInt (b : TxDataBuilder) (value : Option Int) :
    TxDataBuilder :=
  match value with
  | none => { b with err := some .nilValue }
  | some v => b.addBytes (bigIntBytes v)

/-- Model of `builder.ArgInt64`. -/
def TxDataBuilder.argInt64 (b : TxDataBuilder) (value : Int) : TxDataBuilder :=
  b.addBytes (bigIntBytes value)

/-- Model of `builder.ArgBytes`: an empty slice records `ErrInvalidValue` but
the (empty) encoding is still appended, mirroring the missing early return in
the source. -/
def TxDataBuilder.argBytes (b : TxDataBuilder) (bytes : List Nat) :
    TxDataBuilder :=
  let b' := if bytes.isEmpty then { b with err := some .invalidValue } else b
  { b' with args := b'.args ++ [hexEncode bytes] }

/-- Model of `builder.ToDataString`: the latched error if any, otherwise the
function name joined with the arguments by `@`. -/
def TxDataBuilder.toDataString (b : TxDataBuilder) :
    Except TxBuilderErr String :=
  match b.err with
  | some e => .error e
  | none => .ok (String.intercalate "@" (b.function :: b.args))

/-- Model of `builder.ToDataBytes`: the data string's bytes (the strings here
are ASCII, so the byte conversion is modelled as the character list). -/
def TxDataBuilder.toDataBytes (b : TxDataBuilder) :
    Except TxBuilderErr (List Char) :=
  match b.toDataString with
  | .error e => .error e
  | .ok s => .ok s.toList

/-- Model of `builder.ToVmValueRequest`. -/
def TxDataBuilder.toVmValueRequest (b : TxDataBuilder) :
    Except TxBuilderErr VmValueRequest :=
  match b.err with
  | some e => .error e
  | none =>
    .ok { address := b.address, funcName := b.function,
          callerAddr := b.callerAddr, args := b.args }

/-- One call on the builder's fluent interface. -/
inductive BuilderStep where
  | functionStep (f : String) : BuilderStep
  | callerAddress (a : Option AddrVal) : BuilderStep
  | addressStep (a : Option AddrVal) : BuilderStep
  | argHexString (s : String) : BuilderStep
  | argAddress (a : Option AddrVal) : BuilderStep
  | argBigInt (v : Option Int) : BuilderStep
  | argInt64 (v : Int) : BuilderStep
  | argBytes (bs : List Nat) : BuilderStep
  deriving Repr

/-- Apply one fluent call to a builder. -/
def applyStep (b : TxDataBuilder) : BuilderStep → TxDataBuilder
  | .functionStep f => b.functionStep f
  | .callerAddress a => b.callerAddress a
  | .addressStep a => b.addressStep a
  | .argHexString s => b.argHexString s
  | .argAddress a => b.argAddress a
  | .argBigInt v => b.argBigInt v
  | .argInt64 v => b.argInt64 v
  | .argBytes bs => b.argBytes bs

/-- A step is successful when its own input is acceptable, so that it never
records an error: valid hex, non-nil non-empty address, non-nil value,
non-empty byte slice; `Function` and `ArgInt64` always succeed. -/
def stepOk : BuilderStep → Bool
  | .functionStep _ => true
  | .callerAddress a => (checkAddress a).isNone
  | .addressStep a => (checkAddress a).isNone
  | .argHexString s => goHexDecodable s
  | .argAddress a => (checkAddress a).isNone
  | .argBigInt v => v.isSome
  | .argInt64 _ => true
  | .argBytes bs => !bs.isEmpty

/-! ## Address generator (`addressGenerator`, src/blockchain/addressGenerator.go) -/

/-- Go error values that flow through the address generator (the block-chain
hook's `NewAddress` may fail with an arbitrary error). -/
inductive AddrGenErr where
  | hookErr (code : Nat) : AddrGenErr
  deriving DecidableEq, Repr

/-- Elrond-go-core constant `ShardIdentiferLen`. -/
def shardIdentiferLen : Nat := 2

/-- Elrond-go constant `factory.ArwenVirtualMachine` (`[]byte{5, 0}`). -/
def arwenVirtualMachine : List Nat := [5, 0]

/-- Source constant `accountStartNonce`. -/
def accountStartNonce : Nat := 0

/-- Source constant `initialDNSAddress`: 32 bytes of value 1. -/
def initialDNSAddress : List Nat := List.replicate 32 1

/-- Model of the `addressGenerator` struct: the block-chain hook's external
`NewAddress(creatorAddress, nonce, vmType)` operation and the keccak hashing
engine are interface fields of the Go struct and are carried here as function
fields (keccak's `Compute` always yields a 32-byte digest). -/
structure AddressGenerator where
  newAddress : List Nat → Nat → List Nat → Except AddrGenErr (List Nat)
  hasherCompute : String → List Nat

/-- Model of `CompatibleDNSAddress`: splice the shard identifier bytes
`[0, shardId]` over the tail of the initial DNS address and derive the new
address through the hook. -/
def AddressGenerator.compatibleDNSAddress (ag : AddressGenerator)
    (shardId : Nat) : Except AddrGenErr (List Nat) :=
  let addressLen := initialDNSAddress.length
  let shardInBytes := [0, shardId]
  let newDNSPk := initialDNSAddress.take (addressLen - shardIdentiferLen) ++
    shardInBytes
  match ag.newAddress newDNSPk accountStartNonce arwenVirtualMachine with
  | .error e => .error e
  | .ok newDNSAddress => .ok newDNSAddress

/-- Model of `CompatibleDNSAddressFromUsername`: hash the username, take the
last byte of the digest (`hash[len(hash)-1]`), and call
`CompatibleDNSAddress` on it. -/
def AddressGenerator.compatibleDNSAddressFromUsername (ag : AddressGenerator)
    (username : String) : Except AddrGenErr (List Nat) :=
  let hash := ag.hasherCompute username
  let lastByte := hash.getD (hash.length - 1) 0
  ag.compatibleDNSAddress lastByte

/-! ## Header-check handler construction (src/headerCheck/headerCheckHandler.go)

Go errors returned from the construction pipeline: the sentinel `ErrNilProxy`
and opaque errors propagated from the proxy or the factories. -/

inductive GoErr where
  | errNilProxy : GoErr
  | wrapped (msg : String) : GoErr
  deriving DecidableEq, Repr

/-- Remote network configuration (opaque payload). -/
structure NetworkConfig where
  payload : Nat
  deriving DecidableEq, Repr

/-- Remote ratings configuration (opaque payload). -/
structure RatingsConfig where
  payload : Nat
  deriving DecidableEq, Repr

/-- Remote enable-epochs configuration (opaque payload). -/
structure EnableEpochsConfig where
  payload : Nat
  deriving DecidableEq, Repr

/-- Marshaller component (opaque payload). -/
structure Marshaller where
  payload : Nat
  deriving DecidableEq, Repr

/-- Hasher component (opaque payload). -/
structure Hasher where
  payload : Nat
  deriving DecidableEq, Repr

/-- Rater component (opaque payload). -/
structure Rater where
  payload : Nat
  deriving DecidableEq, Repr

/-- Multi-signature verifier component (opaque payload). -/
structure MultiSigVerifier where
  payload : Nat
  deriving DecidableEq, Repr

/-- Single-signature verifier component (opaque payload). -/
structure SingleSigVerifier where
  payload : Nat
  deriving DecidableEq, Repr

/-- Key generator component (opaque payload). -/
structure KeyGen where
  payload : Nat
  deriving DecidableEq, Repr

/-- Nodes coordinator component (opaque payload). -/
structure NodesCoordinator where
  payload : Nat
  deriving DecidableEq, Repr

/-- The fallback header validator wired into the signature verifier: either
the built-in `testscommon.FallBackHeaderValidatorStub{}` the source
instantiates, or some other implementation. -/
inductive FallbackHeaderValidator where
  | builtinStub : FallbackHeaderValidator
  | custom (payload : Nat) : FallbackHeaderValidator
  deriving DecidableEq, Repr

/-- Model of `factory.CoreComponents` (the fields the handler uses). -/
structure CoreComponents where
  marshaller : Marshaller
  hasher : Hasher
  rater : Rater
  deriving DecidableEq, Repr

/-- Model of `factory.CryptoComponents` (the fields the handler uses). -/
structure CryptoComponents where
  multiSig : MultiSigVerifier
  singleSig : SingleSigVerifier
  keyGen : KeyGen
  deriving DecidableEq, Repr

/-- Decidable equality for `Except`, needed to compare proxy behaviors. -/
instance {ε α : Type} [DecidableEq ε] [DecidableEq α] :
    DecidableEq (Except ε α) := fun a b =>
  match a, b with
  | .error x, .error y =>
    if h : x = y then .isTrue (by rw [h])
    else .isFalse (by intro hc; cases hc; exact h rfl)
  | .error _, .ok _ => .isFalse (by intro hc; cases hc)
  | .ok _, .error _ => .isFalse (by intro hc; cases hc)
  | .ok x, .ok y =>
    if h : x = y then .isTrue (by rw [h])
    else .isFalse (by intro hc; cases hc; exact h rfl)

/-- Model of the `Proxy` interface as the handler consumes it: the three
configuration getters (each a fixed idempotent read returning data or an
error), plus an opaque identity for the header-serving behavior the raw
header handler later uses (`GetRawHeaderByHash` and friends). -/
structure Proxy where
  getNetworkConfig : Except GoErr NetworkConfig
  getRatingsConfig : Except GoErr RatingsConfig
  getEnableEpochsConfig : Except GoErr EnableEpochsConfig
  headerSource : Nat
  deriving DecidableEq, Repr

/-- Model of `headerCheck.ArgsHeaderSigVerifier` as populated by the
handler. -/
structure ArgsHeaderSigVerifier where
  marshalizer : Marshaller
  hasher : Hasher
  nodesCoordinator : NodesCoordinator
  multiSigVerifier : MultiSigVerifier
  singleSigVerifier : SingleSigVerifier
  keyGen : KeyGen
  fallbackHeaderValidator : FallbackHeaderValidator
  deriving DecidableEq, Repr

/-- The constructed header-signature verifier holds its arguments. -/
structure HeaderSigVerifier where
  args : ArgsHeaderSigVerifier
  deriving DecidableEq, Repr

/-- The raw header handler holds the proxy it fetches from and the
marshaller it decodes with. -/
structure RawHeaderHandler where
  proxy : Proxy
  marshaller : Marshaller
  deriving DecidableEq, Repr

/-- Model of `ArgsHeaderVerifier`. -/
structure ArgsHeaderVerifier where
  headerHandler : RawHeaderHandler
  headerSigVerifier : HeaderSigVerifier
  nodesCoordinator : NodesCoordinator
  deriving DecidableEq, Repr

/-- The constructed header verifier holds its components. -/
structure HeaderVerifier where
  headerHandler : RawHeaderHandler
  headerSigVerifier : HeaderSigVerifier
  nodesCoordinator : NodesCoordinator
  deriving DecidableEq, Repr

/-- Modelled from the spec: `headerCheck.NewHeaderSigVerifier` lives in the
external elrond-go library; it validates its (here always well-formed)
arguments and stores them in the verifier. -/
def newHeaderSigVerifier (args : ArgsHeaderSigVerifier) :
    Except GoErr HeaderSigVerifier :=
  .ok { args := args }

/-- Modelled from the spec: `NewRawHeaderHandler` (erdgo code outside the
excerpt) checks its collaborators for nil — both are present here — and
stores proxy and marshaller as the HeaderFetcher's state. -/
def newRawHeaderHandler (proxy : Proxy) (marshaller : Marshaller) :
    Except GoErr RawHeaderHandler :=
  .ok { proxy := proxy, marshaller := marshaller }

/-- Modelled from the spec: `NewHeaderVerifier` (erdgo code outside the
excerpt) checks its argument components for nil — all present here — and
stores them as the orchestrator's state. -/
def newHeaderVerifier (args : ArgsHeaderVerifier) :
    Except GoErr HeaderVerifier :=
  .ok { headerHandler := args.headerHandler,
        headerSigVerifier := args.headerSigVerifier,
        nodesCoordinator := args.nodesCoordinator }

/-- Modelled from the spec: the three factory calls
(`factory.CreateCoreComponents`, `factory.CreateCryptoComponents`,
`factory.CreateNodesCoordinator`) delegate to the external heavyweight
library; their behavior is kept abstract as deterministic fallible
functions of exactly the arguments the source passes them. -/
structure FactoryEnv where
  createCoreComponents :
    RatingsConfig → NetworkConfig → Except GoErr CoreComponents
  createCryptoComponents : Unit → Except GoErr CryptoComponents
  createNodesCoordinator :
    Hasher → Rater → NetworkConfig → EnableEpochsConfig →
      Except GoErr NodesCoordinator

/-- Tags for the remote calls and factory steps the handler performs, in
source order. -/
inductive CallTag where
  | getNetworkConfig : CallTag
  | getRatingsConfig : CallTag
  | getEnableEpochsConfig : CallTag
  | createCoreComponents : CallTag
  | createCryptoComponents : CallTag
  | createNodesCoordinator : CallTag
  | newHeaderSigVerifier : CallTag
  | newRawHeaderHandler : CallTag
  | newHeaderVerifier : CallTag
  deriving DecidableEq, Repr

/-- Model of `NewHeaderCheckHandler`, instrumented with the list of remote
calls and factory steps it performs, in order.  A nil proxy (`none`) is
rejected up front via `check.IfNil`; every subsequent step propagates its
error immediately.  The fallback header validator is the built-in stub the
source instantiates inline. -/
def newHeaderCheckHandlerTrace (env : FactoryEnv) (proxy : Option Proxy) :
    Except GoErr HeaderVerifier × List CallTag :=
  match proxy with
  | none => (.error .errNilProxy, [])
  | some p =>
    match p.getNetworkConfig with
    | .error e => (.error e, [.getNetworkConfig])
    | .ok networkConfig =>
      match p.getRatingsConfig with
      | .error e => (.error e, [.getNetworkConfig, .getRatingsConfig])
      | .ok ratingsConfig =>
        match p.getEnableEpochsConfig with
        | .error e =>
          (.error e,
           [.getNetworkConfig, .getRatingsConfig, .getEnableEpochsConfig])
        | .ok enableEpochsConfig =>
          match env.createCoreComponents ratingsConfig networkConfig with
          | .error e =>
            (.error e,
             [.getNetworkConfig, .getRatingsConfig, .getEnableEpochsConfig,
              .createCoreComponents])
          | .ok coreComp =>
            match env.createCryptoComponents () with
            | .error e =>
              (.error e,
               [.getNetworkConfig, .getRatingsConfig, .getEnableEpochsConfig,
                .createCoreComponents, .createCryptoComponents])
            | .ok cryptoComp =>
              match env.createNodesCoordinator coreComp.hasher coreComp.rater
                  networkConfig enableEpochsConfig with
              | .error e =>
                (.error e,
                 [.getNetworkConfig, .getRatingsConfig,
                  .getEnableEpochsConfig, .createCoreComponents,
                  .createCryptoComponents, .createNodesCoordinator])
              | .ok nodesCoordinator =>
                let headerSigArgs : ArgsHeaderSigVerifier :=
                  { marshalizer := coreComp.marshaller,
                    hasher := coreComp.hasher,
                    nodesCoordinator := nodesCoordinator,
                    multiSigVerifier := cryptoComp.multiSig,
                    singleSigVerifier := cryptoComp.singleSig,
                    keyGen := cryptoComp.keyGen,
                    fallbackHeaderValidator := .builtinStub }
                match newHeaderSigVerifier headerSigArgs with
                | .error e =>
                  (.error e,
                   [.getNetworkConfig, .getRatingsConfig,
                    .getEnableEpochsConfig, .createCoreComponents,
                    .createCryptoComponents, .createNodesCoordinator,
                    .newHeaderSigVerifier])
                | .ok headerSigVerifier =>
                  match newRawHeaderHandler p coreComp.marshaller with
                  | .error e =>
                    (.error e,
                     [.getNetworkConfig, .getRatingsConfig,
                      .getEnableEpochsConfig, .createCoreComponents,
                      .createCryptoComponents, .createNodesCoordinator,
                      .newHeaderSigVerifier, .newRawHeaderHandler])
                  | .ok rawHeaderHandler =>
                    match newHeaderVerifier
                        { headerHandler := rawHeaderHandler,
                          headerSigVerifier := headerSigVerifier,
                          nodesCoordinator := nodesCoordinator } with
                    | .error e =>
                      (.error e,
                       [.getNetworkConfig, .getRatingsConfig,
                        .getEnableEpochsConfig, .createCoreComponents,
                        .createCryptoComponents, .createNodesCoordinator,
                        .newHeaderSigVerifier, .newRawHeaderHandler,
                        .newHeaderVerifier])
                    | .ok headerVerifier =>
                      (.ok headerVerifier,
                       [.getNetworkConfig, .getRatingsConfig,
                        .getEnableEpochsConfig, .createCoreComponents,
                        .createCryptoComponents, .createNodesCoordinator,
                        .newHeaderSigVerifier, .newRawHeaderHandler,
                        .newHeaderVerifier])

/-- Model of `NewHeaderCheckHandler`: the returned verifier or error. -/
def newHeaderCheckHandler (env : FactoryEnv) (proxy : Option Proxy) :
    Except GoErr HeaderVerifier :=
  (newHeaderCheckHandlerTrace env proxy).1

/-! ## Committee selection (spec §4.3)

The source delegates selection to `factory.CreateNodesCoordinator` from the
external elrond-go library; the spec pins down only the contract
(rating-floor exclusion, canonical sort, fixed output size, determinism,
a seeded pseudo-random index walk).  The definitions below are modelled
from the spec accordingly. -/

/-- Modelled from the spec: a validator entry — public key, rating score,
shard assignment (spec §3, `ValidatorEntry`). -/
structure ValidatorEntry where
  pubKey : List Nat
  rating : Nat
  shard : Nat
  deriving DecidableEq, Repr

/-- Selection failure: the eligible set is smaller than the committee size. -/
inductive SelectErr where
  | insufficientValidators : SelectErr
  deriving DecidableEq, Repr

/-- Canonical order on validator entries: by rating, then by public key
(lexicographic on bytes), as spec §3 mandates for determinism. -/
def valLE (a b : ValidatorEntry) : Bool :=
  if a.rating ≠ b.rating then a.rating < b.rating
  else decide (a.pubKey ≤ b.pubKey)

/-- Insertion into a canonically sorted list. -/
def insertVal (v : ValidatorEntry) : List ValidatorEntry →
    List ValidatorEntry
  | [] => [v]
  | w :: ws => if valLE v w then v :: w :: ws else w :: insertVal v ws

/-- Modelled from the spec: the mandatory canonical sort of the eligible
set. -/
def canonicalSort (l : List ValidatorEntry) : List ValidatorEntry :=
  l.foldr insertVal []

/-- Modelled from the spec: deterministic mixing of the randomness seed with
round, shard, and draw index into a pseudo-random number (the exact network
formula is an open question in spec §9; the contract requires only a fixed
deterministic function of these inputs). -/
def mixSeed (seed : List Nat) (round shard i : Nat) : Nat :=
  seed.foldl (fun a b => a * 31 + b) 7 + round * 131 + shard * 137 + i * 139

/-- Modelled from the spec: the seeded index walk — each draw removes the
picked validator from the pool. -/
def selectLoop (seed : List Nat) (round shard : Nat) :
    List ValidatorEntry → Nat → Nat → List (List Nat)
  | _, 0, _ => []
  | pool, k + 1, i =>
    if pool.isEmpty then []
    else
      let idx := mixSeed seed round shard i % pool.length
      let v := pool.getD idx { pubKey := [], rating := 0, shard := 0 }
      v.pubKey :: selectLoop seed round shard (pool.eraseIdx idx) k (i + 1)

/-- Modelled from the spec: `SelectCommittee(eligibleSet, seed, round, shard)`
— exclude validators below the rating floor, sort canonically, fail with
`InsufficientValidatorsError` if fewer than the committee size remain,
otherwise walk the sorted pool deterministically. -/
def selectCommittee (committeeSize ratingFloor : Nat)
    (eligibleSet : List ValidatorEntry) (seed : List Nat)
    (round shard : Nat) : Except SelectErr (List (List Nat)) :=
  let filtered := eligibleSet.filter fun v => ratingFloor ≤ v.rating
  let sorted := canonicalSort filtered
  if sorted.length < committeeSize then .error .insufficientValidators
  else .ok (selectLoop seed round shard sorted committeeSize 0)

/-! ## Header-signature verification (spec §4.4)

The source delegates this to `headerCheck.NewHeaderSigVerifier` from the
external elrond-go library; the verification steps below are modelled from
spec §4.4 in its order. -/

/-- Verification failures of spec §4.4. -/
inductive VerifyErr where
  | insufficientSignatures : VerifyErr
  | fallbackRejected : VerifyErr
  | invalidAggregatedSignature : VerifyErr
  | invalidLeaderSignature : VerifyErr
  deriving DecidableEq, Repr

/-- Modelled from the spec: the header fields the signature verifier reads
(spec §3, `Header`). -/
structure HeaderM where
  shardId : Nat
  epoch : Nat
  round : Nat
  nonce : Nat
  prevHash : List Nat
  randSeed : List Nat
  leaderSignature : List Nat
  aggregatedSignature : List Nat
  pubKeysBitmap : List Bool
  fallbackFlag : Bool
  deriving DecidableEq, Repr

/-- Modelled from the spec: the crypto primitives the verifier consults —
aggregated multi-signature verification, single-signature verification, and
the canonical signed payload (header bytes excluding signature fields). -/
structure CryptoOps where
  aggVerify : List (List Nat) → List Nat → List Nat → Bool
  singleVerify : List Nat → List Nat → List Nat → Bool
  serializeNoSig : HeaderM → List Nat

/-- Modelled from the spec: the pluggable `FallbackPolicy.Accept(header,
committee)` collaborator. -/
structure FallbackPolicy where
  accept : HeaderM → List (List Nat) → Bool

/-- Spec §4.4 step (1): decode the participation bitmap into the subset of
committee members who allegedly signed. -/
def participatingKeys (bitmap : List Bool) (committee : List (List Nat)) :
    List (List Nat) :=
  (committee.zip bitmap).filterMap fun kb => if kb.2 then some kb.1 else none

/-- Modelled from the spec: `Verify(header, committee, cryptoPrimitives)`
following spec §4.4 steps (1)–(5) in order; every failure is a definitive
invalid verdict. -/
def verifyHeaderSig (ops : CryptoOps) (policy : FallbackPolicy)
    (minSigners : Nat) (h : HeaderM) (committee : List (List Nat)) :
    Except VerifyErr Unit :=
  let participants := participatingKeys h.pubKeysBitmap committee
  if participants.length < minSigners && !h.fallbackFlag then
    .error .insufficientSignatures
  else if h.fallbackFlag && !policy.accept h committee then
    .error .fallbackRejected
  else if !ops.aggVerify participants (ops.serializeNoSig h)
      h.aggregatedSignature then
    .error .invalidAggregatedSignature
  else
    let leaderKey := committee.getD 0 []
    if !ops.singleVerify leaderKey (ops.serializeNoSig h)
        h.leaderSignature then
      .error .invalidLeaderSignature
    else .ok ()

/-! ## Concrete fixtures used by witnesses and counterexamples -/

/-- Projection of a construction result onto the fallback validator wired
into the header-signature verifier, when construction succeeded. -/
def fallbackOf : Except GoErr HeaderVerifier → Option FallbackHeaderValidator
  | .ok v => some v.headerSigVerifier.args.fallbackHeaderValidator
  | .error _ => none

/-- Concrete factory environment whose components are simple deterministic
functions of the configuration payloads. -/
def sampleEnv : FactoryEnv :=
  { createCoreComponents := fun r n =>
      .ok { marshaller := ⟨n.payload + r.payload⟩, hasher := ⟨n.payload⟩,
            rater := ⟨r.payload⟩ },
    createCryptoComponents := fun _ =>
      .ok { multiSig := ⟨11⟩, singleSig := ⟨12⟩, keyGen := ⟨13⟩ },
    createNodesCoordinator := fun h r n e =>
      .ok ⟨h.payload + r.payload + n.payload + e.payload⟩ }

/-- Concrete factory environment whose core-components step fails. -/
def failCoreEnv : FactoryEnv :=
  { createCoreComponents := fun _ _ => .error (.wrapped "core"),
    createCryptoComponents := fun _ =>
      .ok { multiSig := ⟨11⟩, singleSig := ⟨12⟩, keyGen := ⟨13⟩ },
    createNodesCoordinator := fun _ _ _ _ => .ok ⟨0⟩ }

/-- Concrete proxy whose three configuration reads succeed. -/
def sampleProxy : Proxy :=
  { getNetworkConfig := .ok ⟨1⟩, getRatingsConfig := .ok ⟨2⟩,
    getEnableEpochsConfig := .ok ⟨3⟩, headerSource := 0 }

/-- Concrete proxy whose network-config read fails. -/
def failNetProxy : Proxy :=
  { getNetworkConfig := .error (.wrapped "net"), getRatingsConfig := .ok ⟨2⟩,
    getEnableEpochsConfig := .ok ⟨3⟩, headerSource := 0 }

/-- Concrete proxy whose ratings-config read fails. -/
def failRatProxy : Proxy :=
  { getNetworkConfig := .ok ⟨1⟩,
    getRatingsConfig := .error (.wrapped "rat"),
    getEnableEpochsConfig := .ok ⟨3⟩, headerSource := 0 }

/-- Concrete proxy whose enable-epochs-config read fails. -/
def failEpoProxy : Proxy :=
  { getNetworkConfig := .ok ⟨1⟩, getRatingsConfig := .ok ⟨2⟩,
    getEnableEpochsConfig := .error (.wrapped "epo"), headerSource := 0 }

/-- The verifier `sampleEnv` and `sampleProxy` construct. -/
def sampleVerifier : HeaderVerifier :=
  { headerHandler := { proxy := sampleProxy, marshaller := ⟨3⟩ },
    headerSigVerifier :=
      { args := { marshalizer := ⟨3⟩, hasher := ⟨1⟩, nodesCoordinator := ⟨7⟩,
                  multiSigVerifier := ⟨11⟩, singleSigVerifier := ⟨12⟩,
                  keyGen := ⟨13⟩, fallbackHeaderValidator := .builtinStub } },
    nodesCoordinator := ⟨7⟩ }

/-- Proxy equal to `sampleProxy` except for the header-source identity. -/
def proxyA : Proxy :=
  { getNetworkConfig := .ok ⟨1⟩, getRatingsConfig := .ok ⟨2⟩,
    getEnableEpochsConfig := .ok ⟨3⟩, headerSource := 5 }

/-- Proxy whose fields are definitionally equal to those of `proxyA`. -/
def proxyB : Proxy :=
  { getNetworkConfig := .ok ⟨1⟩, getRatingsConfig := .ok ⟨2⟩,
    getEnableEpochsConfig := .ok ⟨3⟩, headerSource := 2 + 3 }

/-- Crypto primitives that accept every signature, used to show that the
quorum check rejects regardless of signature validity. -/
def trueOps : CryptoOps :=
  { aggVerify := fun _ _ _ => true, singleVerify := fun _ _ _ => true,
    serializeNoSig := fun _ => [] }

/-- Fallback policy that accepts every header. -/
def truePolicy : FallbackPolicy := { accept := fun _ _ => true }

/-- Concrete header with one participating bit and the fallback flag unset. -/
def sampleHeader : HeaderM :=
  { shardId := 0, epoch := 0, round := 1, nonce := 1, prevHash := [],
    randSeed := [4], leaderSignature := [9], aggregatedSignature := [8],
    pubKeysBitmap := [true, false, false], fallbackFlag := false }

/-! ## Helper lemmas -/

/-- A successful builder step never changes the latched error field. -/
theorem stepOk_preserves_err (b : TxDataBuilder) (s : BuilderStep)
    (h : stepOk s = true) : (applyStep b s).err = b.err := by
  cases s with
  | functionStep f => rfl
  | callerAddress a =>
    cases a with
    | none => simp [stepOk, checkAddress] at h
    | some v =>
      simp [stepOk, checkAddress] at h
      simp [applyStep, TxDataBuilder.callerAddress, checkAddress, h]
  | addressStep a =>
    cases a with
    | none => simp [stepOk, checkAddress] at h
    | some v =>
      simp [stepOk, checkAddress] at h
      simp [applyStep, TxDataBuilder.addressStep, checkAddress, h]
  | argHexString s' =>
    simp [stepOk] at h
    simp [applyStep, TxDataBuilder.argHexString, h]
  | argAddress a =>
    cases a with
    | none => simp [stepOk, checkAddress] at h
    | some v =>
      simp [stepOk, checkAddress] at h
      simp [applyStep, TxDataBuilder.argAddress, checkAddress,
        TxDataBuilder.addBytes, h]
  | argBigInt v =>
    cases v with
    | none => simp [stepOk] at h
    | some x =>
      simp [applyStep, TxDataBuilder.argBigInt, TxDataBuilder.addBytes]
  | argInt64 v =>
    simp [applyStep, TxDataBuilder.argInt64, TxDataBuilder.addBytes]
  | argBytes bs =>
    simp [stepOk] at h
    simp [applyStep, TxDataBuilder.argBytes, h]

/-- Folding successful steps over a builder preserves a latched error. -/
theorem foldl_err_latched (e : TxBuilderErr) :
    ∀ (steps : List BuilderStep) (b : TxDataBuilder), b.err = some e →
      (∀ s ∈ steps, stepOk s = true) →
      (steps.foldl applyStep b).err = some e := by
  intro steps
  induction steps with
  | nil => intro b hb _; simpa using hb
  | cons s rest ih =>
    intro b hb hok
    simp only [List.foldl_cons]
    refine ih (applyStep b s) ?_ (fun t ht => hok t (by simp [ht]))
    rw [stepOk_preserves_err b s (hok s (by simp))]
    exact hb

/-- The instrumented handler's step trace is one of the seven prefixes of the
source's fixed call order. -/
theorem trace_cases (env : FactoryEnv) (p : Proxy) :
    (newHeaderCheckHandlerTrace env (some p)).2 = [CallTag.getNetworkConfig] ∨
    (newHeaderCheckHandlerTrace env (some p)).2 =
      [CallTag.getNetworkConfig, CallTag.getRatingsConfig] ∨
    (newHeaderCheckHandlerTrace env (some p)).2 =
      [CallTag.getNetworkConfig, CallTag.getRatingsConfig,
       CallTag.getEnableEpochsConfig] ∨
    (newHeaderCheckHandlerTrace env (some p)).2 =
      [CallTag.getNetworkConfig, CallTag.getRatingsConfig,
       CallTag.getEnableEpochsConfig, CallTag.createCoreComponents] ∨
    (newHeaderCheckHandlerTrace env (some p)).2 =
      [CallTag.getNetworkConfig, CallTag.getRatingsConfig,
       CallTag.getEnableEpochsConfig, CallTag.createCoreComponents,
       CallTag.createCryptoComponents] ∨
    (newHeaderCheckHandlerTrace env (some p)).2 =
      [CallTag.getNetworkConfig, CallTag.getRatingsConfig,
       CallTag.getEnableEpochsConfig, CallTag.createCoreComponents,
       CallTag.createCryptoComponents, CallTag.createNodesCoordinator] ∨
    (newHeaderCheckHandlerTrace env (some p)).2 =
      [CallTag.getNetworkConfig, CallTag.getRatingsConfig,
       CallTag.getEnableEpochsConfig, CallTag.createCoreComponents,
       CallTag.createCryptoComponents, CallTag.createNodesCoordinator,
       CallTag.newHeaderSigVerifier, CallTag.newRawHeaderHandler,
       CallTag.newHeaderVerifier] := by
  simp only [newHeaderCheckHandlerTrace]
  rcases h1 : p.getNetworkConfig with e | nc
  · simp [h1]
  simp only [h1]
  rcases h2 : p.getRatingsConfig with e | rc
  · simp [h2]
  simp only [h2]
  rcases h3 : p.getEnableEpochsConfig with e | ec
  · simp [h3]
  simp only [h3]
  rcases h4 : env.createCoreComponents rc nc with e | cc
  · simp [h4]
  simp only [h4]
  rcases h5 : env.createCryptoComponents () with e | xc
  · simp [h5]
  simp only [h5]
  rcases h6 : env.createNodesCoordinator cc.hasher cc.rater nc ec with e | ncrd
  · simp [h6]
  simp [h6, newHeaderSigVerifier, newRawHeaderHandler, newHeaderVerifier]

/-! ## Claim theorems -/

/-- C1 (counterexample): at a concrete construction (a factory environment
and a proxy whose three configuration reads succeed), the fallback policy
wired into the header-signature verifier is the fixed built-in
`FallBackHeaderValidatorStub` — and `newHeaderCheckHandler` takes no
fallback-policy argument at all — refuting the claim that the consulted
fallback collaborator is one the caller provided. -/
theorem fallbackValidator_counterexample :
    fallbackOf (newHeaderCheckHandler sampleEnv (some sampleProxy)) =
      some FallbackHeaderValidator.builtinStub := rfl

/-- C1 (amended): for every factory environment and proxy, whenever
`NewHeaderCheckHandler` succeeds, the fallback header validator wired into
the header-signature verifier is the fixed built-in
`FallBackHeaderValidatorStub`; the constructor offers the caller no way to
supply one. -/
theorem fallbackValidator_is_builtinStub (env : FactoryEnv) (p : Proxy)
    (v : HeaderVerifier)
    (hv : newHeaderCheckHandler env (some p) = .ok v) :
    v.headerSigVerifier.args.fallbackHeaderValidator =
      FallbackHeaderValidator.builtinStub := by
  simp only [newHeaderCheckHandler, newHeaderCheckHandlerTrace] at hv
  rcases h1 : p.getNetworkConfig with e | nc <;> simp only [h1] at hv
  · cases hv
  rcases h2 : p.getRatingsConfig with e | rc <;> simp only [h2] at hv
  · cases hv
  rcases h3 : p.getEnableEpochsConfig with e | ec <;> simp only [h3] at hv
  · cases hv
  rcases h4 : env.createCoreComponents rc nc with e | cc <;>
    simp only [h4] at hv
  · cases hv
  rcases h5 : env.createCryptoComponents () with e | xc <;>
    simp only [h5] at hv
  · cases hv
  rcases h6 : env.createNodesCoordinator cc.hasher cc.rater nc ec with
      e | ncrd <;> simp only [h6] at hv
  · cases hv
  simp only [newHeaderSigVerifier, newRawHeaderHandler,
    newHeaderVerifier] at hv
  cases hv
  rfl

/-- C1 witness: the amended theorem applied at the concrete sample
construction. -/
theorem fallbackValidator_is_builtinStub_witness :
    sampleVerifier.headerSigVerifier.args.fallbackHeaderValidator =
      FallbackHeaderValidator.builtinStub :=
  fallbackValidator_is_builtinStub sampleEnv sampleProxy sampleVerifier rfl

/-- C2: committee selection is deterministic — two invocations of
`selectCommittee` on identical (eligibleSet, seed, round, shard) inputs
return identical ordered key sequences. -/
theorem selectCommittee_deterministic (committeeSize ratingFloor : Nat)
    (es₁ es₂ : List ValidatorEntry) (seed₁ seed₂ : List Nat)
    (r₁ r₂ sh₁ sh₂ : Nat) (hes : es₁ = es₂) (hseed : seed₁ = seed₂)
    (hr : r₁ = r₂) (hsh : sh₁ = sh₂) :
    selectCommittee committeeSize ratingFloor es₁ seed₁ r₁ sh₁ =
      selectCommittee committeeSize ratingFloor es₂ seed₂ r₂ sh₂ := by
  rw [hes, hseed, hr, hsh]

/-- C2 witness: determinism at a concrete eligible set, seed, round, and
shard. -/
theorem selectCommittee_deterministic_witness :
    selectCommittee 1 0 [{ pubKey := [1], rating := 5, shard := 0 }] [9] 3 0 =
      selectCommittee 1 0 [{ pubKey := [1], rating := 5, shard := 0 }] [9] 3 0 :=
  selectCommittee_deterministic 1 0 _ _ _ _ 3 3 0 0 rfl rfl rfl rfl

/-- C3: a header whose participation count is strictly below the
minimum-signers threshold and whose fallback flag is unset is rejected with
`InsufficientSignaturesError`, for every crypto primitive and fallback
policy — in particular regardless of whether the aggregated signature would
verify. -/
theorem belowThreshold_insufficientSignatures (ops : CryptoOps)
    (policy : FallbackPolicy) (minSigners : Nat) (h : HeaderM)
    (committee : List (List Nat))
    (hcount : (participatingKeys h.pubKeysBitmap committee).length <
      minSigners)
    (hflag : h.fallbackFlag = false) :
    verifyHeaderSig ops policy minSigners h committee =
      .error VerifyErr.insufficientSignatures := by
  simp [verifyHeaderSig, hflag, hcount]

/-- C3 witness: a concrete header with 1 of 3 participation bits against a
threshold of 2, under crypto primitives that accept every signature, is
still rejected with the insufficient-signatures error. -/
theorem belowThreshold_insufficientSignatures_witness :
    verifyHeaderSig trueOps truePolicy 2 sampleHeader [[1], [2], [3]] =
      .error VerifyErr.insufficientSignatures :=
  belowThreshold_insufficientSignatures trueOps truePolicy 2 sampleHeader
    [[1], [2], [3]] (by decide) rfl

/-- C4: whenever one of the three remote configuration reads fails, the
constructor returns exactly that error (with no verifier — the `Except`
error branch carries none), never a verifier built from partial
configuration. -/
theorem configFetchFailure_propagates (env : FactoryEnv) (p : Proxy) :
    (∀ e, p.getNetworkConfig = .error e →
      newHeaderCheckHandler env (some p) = .error e) ∧
    (∀ nc e, p.getNetworkConfig = .ok nc →
      p.getRatingsConfig = .error e →
      newHeaderCheckHandler env (some p) = .error e) ∧
    (∀ nc rc e, p.getNetworkConfig = .ok nc → p.getRatingsConfig = .ok rc →
      p.getEnableEpochsConfig = .error e →
      newHeaderCheckHandler env (some p) = .error e) := by
  refine ⟨fun e he => ?_, fun nc e h1 h2 => ?_, fun nc rc e h1 h2 h3 => ?_⟩ <;>
    simp [newHeaderCheckHandler, newHeaderCheckHandlerTrace, *]

/-- C4 witness: the three failure cases at concrete proxies, each returning
the originating error. -/
theorem configFetchFailure_propagates_witness :
    newHeaderCheckHandler sampleEnv (some failNetProxy) =
      .error (.wrapped "net") ∧
    newHeaderCheckHandler sampleEnv (some failRatProxy) =
      .error (.wrapped "rat") ∧
    newHeaderCheckHandler sampleEnv (some failEpoProxy) =
      .error (.wrapped "epo") :=
  ⟨(configFetchFailure_propagates sampleEnv failNetProxy).1 _ rfl,
   (configFetchFailure_propagates sampleEnv failRatProxy).2.1 ⟨1⟩ _ rfl rfl,
   (configFetchFailure_propagates sampleEnv failEpoProxy).2.2 ⟨1⟩ ⟨2⟩ _
     rfl rfl rfl⟩

/-- C5: a nil proxy is rejected up front with the distinct `ErrNilProxy`
sentinel and the empty call trace shows no configuration fetch is
performed. -/
theorem nilProxy_rejected_without_fetch (env : FactoryEnv) :
    newHeaderCheckHandlerTrace env none =
      (.error GoErr.errNilProxy, []) := rfl

/-- C6: construction never retries and short-circuits — each remote
configuration call appears at most once in the call trace, and when a remote
read or factory step fails the trace stops exactly at the failing step. -/
theorem construction_no_retry_short_circuits (env : FactoryEnv) (p : Proxy) :
    ((newHeaderCheckHandlerTrace env (some p)).2.count
        CallTag.getNetworkConfig ≤ 1 ∧
     (newHeaderCheckHandlerTrace env (some p)).2.count
        CallTag.getRatingsConfig ≤ 1 ∧
     (newHeaderCheckHandlerTrace env (some p)).2.count
        CallTag.getEnableEpochsConfig ≤ 1) ∧
    (∀ e, p.getNetworkConfig = .error e →
      (newHeaderCheckHandlerTrace env (some p)).2 =
        [CallTag.getNetworkConfig]) ∧
    (∀ nc e, p.getNetworkConfig = .ok nc →
      p.getRatingsConfig = .error e →
      (newHeaderCheckHandlerTrace env (some p)).2 =
        [CallTag.getNetworkConfig, CallTag.getRatingsConfig]) ∧
    (∀ nc rc e, p.getNetworkConfig = .ok nc → p.getRatingsConfig = .ok rc →
      p.getEnableEpochsConfig = .error e →
      (newHeaderCheckHandlerTrace env (some p)).2 =
        [CallTag.getNetworkConfig, CallTag.getRatingsConfig,
         CallTag.getEnableEpochsConfig]) ∧
    (∀ nc rc ec e, p.getNetworkConfig = .ok nc →
      p.getRatingsConfig = .ok rc → p.getEnableEpochsConfig = .ok ec →
      env.createCoreComponents rc nc = .error e →
      (newHeaderCheckHandlerTrace env (some p)).2 =
        [CallTag.getNetworkConfig, CallTag.getRatingsConfig,
         CallTag.getEnableEpochsConfig, CallTag.createCoreComponents]) ∧
    (∀ nc rc ec cc e, p.getNetworkConfig = .ok nc →
      p.getRatingsConfig = .ok rc → p.getEnableEpochsConfig = .ok ec →
      env.createCoreComponents rc nc = .ok cc →
      env.createCryptoComponents () = .error e →
      (newHeaderCheckHandlerTrace env (some p)).2 =
        [CallTag.getNetworkConfig, CallTag.getRatingsConfig,
         CallTag.getEnableEpochsConfig, CallTag.createCoreComponents,
         CallTag.createCryptoComponents]) ∧
    (∀ nc rc ec cc xc e, p.getNetworkConfig = .ok nc →
      p.getRatingsConfig = .ok rc → p.getEnableEpochsConfig = .ok ec →
      env.createCoreComponents rc nc = .ok cc →
      env.createCryptoComponents () = .ok xc →
      env.createNodesCoordinator cc.hasher cc.rater nc ec = .error e →
      (newHeaderCheckHandlerTrace env (some p)).2 =
        [CallTag.getNetworkConfig, CallTag.getRatingsConfig,
         CallTag.getEnableEpochsConfig, CallTag.createCoreComponents,
         CallTag.createCryptoComponents,
         CallTag.createNodesCoordinator]) := by
  refine ⟨?_, fun e h1 => ?_, fun nc e h1 h2 => ?_,
    fun nc rc e h1 h2 h3 => ?_, fun nc rc ec e h1 h2 h3 h4 => ?_,
    fun nc rc ec cc e h1 h2 h3 h4 h5 => ?_,
    fun nc rc ec cc xc e h1 h2 h3 h4 h5 h6 => ?_⟩
  · rcases trace_cases env p with h | h | h | h | h | h | h <;> rw [h] <;>
      exact ⟨by decide, by decide, by decide⟩
  all_goals simp [newHeaderCheckHandlerTrace, *]

/-- C6 witness: at a concrete failing network read the trace is the single
fetch, and at a concrete failing core-components factory the trace stops at
that factory step; the remote-call count bounds hold there. -/
theorem construction_no_retry_short_circuits_witness :
    (newHeaderCheckHandlerTrace sampleEnv (some failNetProxy)).2.count
        CallTag.getNetworkConfig ≤ 1 ∧
    (newHeaderCheckHandlerTrace sampleEnv (some failNetProxy)).2 =
      [CallTag.getNetworkConfig] ∧
    (newHeaderCheckHandlerTrace failCoreEnv (some sampleProxy)).2 =
      [CallTag.getNetworkConfig, CallTag.getRatingsConfig,
       CallTag.getEnableEpochsConfig, CallTag.createCoreComponents] :=
  ⟨(construction_no_retry_short_circuits sampleEnv failNetProxy).1.1,
   (construction_no_retry_short_circuits sampleEnv failNetProxy).2.1 _ rfl,
   (construction_no_retry_short_circuits failCoreEnv
     sampleProxy).2.2.2.2.1 ⟨1⟩ ⟨2⟩ ⟨3⟩ _ rfl rfl rfl rfl⟩

/-- C7: construction is a pure function of the fetched data — two runs in
which the data source answers the three configuration reads identically
(and serves headers identically) construct identical verifiers. -/
theorem construction_pure_in_fetched_data (env : FactoryEnv) (p₁ p₂ : Proxy)
    (hnet : p₁.getNetworkConfig = p₂.getNetworkConfig)
    (hrat : p₁.getRatingsConfig = p₂.getRatingsConfig)
    (hepo : p₁.getEnableEpochsConfig = p₂.getEnableEpochsConfig)
    (hsrc : p₁.headerSource = p₂.headerSource) :
    newHeaderCheckHandler env (some p₁) =
      newHeaderCheckHandler env (some p₂) := by
  have hp : p₁ = p₂ := by
    cases p₁
    cases p₂
    simp_all
  rw [hp]

/-- C7 witness: two definitionally distinct proxies with identical
responses construct the same verifier. -/
theorem construction_pure_in_fetched_data_witness :
    newHeaderCheckHandler sampleEnv (some proxyA) =
      newHeaderCheckHandler sampleEnv (some proxyB) :=
  construction_pure_in_fetched_data sampleEnv proxyA proxyB rfl rfl rfl rfl

/-- C8: the transaction-data builder latches an error — once a step has
recorded an error, any sequence of subsequent successful calls leaves it in
place, and `ToDataString`, `ToDataBytes`, and `ToVmValueRequest` all return
exactly that error (the `Except` error branch carries no result, matching
the empty/nil results in the source). -/
theorem txBuilder_error_latched (b : TxDataBuilder) (e : TxBuilderErr)
    (steps : List BuilderStep) (hb : b.err = some e)
    (hok : ∀ s ∈ steps, stepOk s = true) :
    (steps.foldl applyStep b).toDataString = .error e ∧
    (steps.foldl applyStep b).toDataBytes = .error e ∧
    (steps.foldl applyStep b).toVmValueRequest = .error e := by
  have herr := foldl_err_latched e steps b hb hok
  refine ⟨?_, ?_, ?_⟩ <;>
    simp [TxDataBuilder.toDataString, TxDataBuilder.toDataBytes,
      TxDataBuilder.toVmValueRequest, herr]

/-- C8 witness: a builder that recorded the nil-big-integer error, followed
by a successful function call and a successful int argument, still reports
that error from all three output calls. -/
theorem txBuilder_error_latched_witness :
    ([BuilderStep.functionStep "fn",
      BuilderStep.argInt64 7].foldl applyStep
        ((newTxDataBuilder false).argBigInt none)).toDataString =
      .error TxBuilderErr.nilValue ∧
    ([BuilderStep.functionStep "fn",
      BuilderStep.argInt64 7].foldl applyStep
        ((newTxDataBuilder false).argBigInt none)).toDataBytes =
      .error TxBuilderErr.nilValue ∧
    ([BuilderStep.functionStep "fn",
      BuilderStep.argInt64 7].foldl applyStep
        ((newTxDataBuilder false).argBigInt none)).toVmValueRequest =
      .error TxBuilderErr.nilValue :=
  txBuilder_error_latched ((newTxDataBuilder false).argBigInt none)
    TxBuilderErr.nilValue [BuilderStep.functionStep "fn",
      BuilderStep.argInt64 7] rfl (by decide)

/-- C9: `ArgBigInt` and `ArgInt64` normalize the integer zero — whose
big-endian byte representation is empty — to the hex argument `"00"`, so a
builder carrying function `f` and the single argument `ArgInt64(0)` renders
the data string `f@00`. -/
theorem argZero_normalized_to_00 :
    (∀ b : TxDataBuilder,
      (b.argBigInt (some 0)).args = b.args ++ ["00"]) ∧
    (∀ b : TxDataBuilder, (b.argInt64 0).args = b.args ++ ["00"]) ∧
    (((newTxDataBuilder false).functionStep "f").argInt64 0).toDataString =
      .ok "f@00" := by
  have h00 : hexEncode [0] = "00" := by decide
  refine ⟨fun b => ?_, fun b => ?_, by decide⟩ <;>
    simp [TxDataBuilder.argBigInt, TxDataBuilder.argInt64,
      TxDataBuilder.addBytes, bigIntBytes, natToBytesBE, natToBytesBEAux,
      h00]

/-- C10: deriving the DNS address from a username agrees, as an equation,
with applying `CompatibleDNSAddress` to the last byte of the keccak digest
of the username, errors included. -/
theorem dnsAddressFromUsername_is_composition (ag : AddressGenerator)
    (username : String) :
    ag.compatibleDNSAddressFromUsername username =
      ag.compatibleDNSAddress
        ((ag.hasherCompute username).getD
          ((ag.hasherCompute username).length - 1) 0) := rfl

end ErdGo
